import Mathlib

/-!
Verification of the MCI Simulation Dashboard data pipeline (dashboard.py).

Shallow embedding of the two core components:
  * the Normalizer `auto_clean_raw_to_csv` (raw NOAA rows → canonical events),
  * the Query/Aggregation Engine (filter logic of §6 of the script, the
    empty-result placeholder substitution of §7, the KPI sums, the peak
    record via `idxmax`, and the severity-checkbox guard `enforce_one`).

Numeric cells are modelled as exact rationals (ℚ); a raw cell is either
missing (NaN), a number, or text that `pd.to_numeric(errors := coerce)`
cannot convert (numeric-looking strings are modelled as numbers, since
`to_numeric` parses them). `astype(int)` is C-style truncation toward zero.
The model starts after the column-renaming step of the script: the required
columns (year, month, day, latitude, longitude, depth_km, magnitude, deaths,
injuries) are fields of every raw row, and frame-level flags record whether
the optional `event_id`, `location_name` and `tsunami_flag` columns exist.
-/

namespace MCI

/-- A raw cell after `pd.read_csv`: missing (NaN), a numeric value, or a
text value that `pd.to_numeric` with coercion turns into NaN. -/
inductive RawValue where
  | missing : RawValue
  | num : ℚ → RawValue
  | text : String → RawValue
deriving DecidableEq

/-- Model of `pd.to_numeric(col, errors="coerce")` on one cell: numbers survive,
missing and non-convertible text become missing. -/
def toNumeric : RawValue → Option ℚ
  | .missing => none
  | .num q => some q
  | .text _ => none

/-- numpy `astype(int)` on a float value: truncation toward zero. -/
def ratTrunc (q : ℚ) : Int := Int.tdiv q.num q.den

/-- Model of `col.fillna(d).astype(int)` on one (already numeric-coerced) cell. -/
def fillInt (d : Int) : Option ℚ → Int
  | some q => ratTrunc q
  | none => d

/-- Python `str.strip` on a character list: drop leading and trailing
whitespace. -/
def stripChars (cs : List Char) : List Char :=
  ((cs.dropWhile Char.isWhitespace).reverse.dropWhile Char.isWhitespace).reverse

/-- Python `str.strip` (pandas `.str.strip()`): structural model over the
characters of the string. -/
def stripStr (s : String) : String := ⟨stripChars s.data⟩

/-- Python `str.lower`: characters mapped to lower case. -/
def lowerStr (s : String) : String := ⟨s.data.map Char.toLower⟩

/-- A calendar date as produced by `pd.to_datetime(dict(year, month, day))`. -/
structure Date where
  y : Int
  m : Int
  d : Int
deriving DecidableEq

/-- Gregorian leap-year rule, used by the datetime parser. -/
def isLeap (y : Int) : Bool := y % 4 == 0 && (y % 100 != 0 || y % 400 == 0)

/-- Number of days in a month (0 for an invalid month index). -/
def daysInMonth (y m : Int) : Int :=
  if m == 2 then (if isLeap y then 29 else 28)
  else if m == 4 || m == 6 || m == 9 || m == 11 then 30
  else if 1 ≤ m && m ≤ 12 then 31
  else 0

/-- Whether a (year, month, day) midnight instant is representable as a
pandas nanosecond `Timestamp` (min 1677-09-21 00:12, max 2262-04-11 23:47):
out-of-bounds dates become NaT under `errors="coerce"`. -/
def tsInRange (y m d : Int) : Bool :=
  (decide (1677 < y) || (y == 1677 && (decide (9 < m) || (m == 9 && decide (21 < d))))) &&
  (decide (y < 2262) || (y == 2262 && (decide (m < 4) || (m == 4 && decide (d ≤ 11)))))

/-- Success condition of `pd.to_datetime(dict(year, month, day),
errors="coerce")` for one row: the coerced year must be present and integral,
the month and day must form a real calendar date, and the result must fit in
a nanosecond timestamp; otherwise the cell becomes NaT. -/
def dateOk (y : ℚ) (m d : Int) : Bool :=
  y.den == 1 && decide (1 ≤ m) && decide (m ≤ 12) &&
  decide (1 ≤ d) && decide (d ≤ daysInMonth y.num m) && tsInRange y.num m d

/-- A canonical Event: one row of the cleaned CSV. `date` and `event_id`
and `tsunami_flag` are `Option`s because the placeholder row of §7 has no
date column and the optional columns may be absent from the source. -/
structure Event where
  event_id : Option RawValue
  date : Option Date
  year : Int
  location_name : String
  latitude : ℚ
  longitude : ℚ
  magnitude : ℚ
  depth_km : ℚ
  deaths : Int
  injuries : Int
  total_casualties : Int
  tsunami_flag : Option Int
deriving DecidableEq

/-- Tsunami-flag normalization (lines 205-217): `astype(str)`, strip, lower,
the truthy/falsy token table, then numeric coercion with `fillna(0)` and
`astype(int)`. A missing cell stringifies to "nan" (mapped to 0); a numeric
cell round-trips through its decimal string and truncates; unmapped
non-numeric text coerces to NaN and then to 0. -/
def normTsunami : RawValue → Int
  | .missing => 0
  | .num q => ratTrunc q
  | .text s =>
    let t := lowerStr (stripStr s)
    if t == "y" || t == "yes" || t == "true" || t == "1" || t == "t" then 1
    else 0

/-- A raw row after the column renaming of lines 165-185: the required
columns are always present (the missing-column `ValueError` of line 190 is
outside this model); `location_name`, `tsunami_flag` and `event_id` cells
are meaningful only when the frame-level flags say the column exists. -/
structure RawRow where
  event_id : RawValue
  year : RawValue
  month : RawValue
  day : RawValue
  location_name : String
  latitude : RawValue
  longitude : RawValue
  depth_km : RawValue
  magnitude : RawValue
  deaths : RawValue
  injuries : RawValue
  tsunami_flag : RawValue
deriving DecidableEq

/-- A raw frame after renaming: which optional columns exist, and the rows. -/
structure RawFrame where
  hasEventId : Bool
  hasLocation : Bool
  hasTsunami : Bool
  rows : List RawRow
deriving DecidableEq

/-- Errors the modelled part of the Normalizer can raise.
`attributeError` is the crash of line 199: when no location-name column
exists, `df.get("location_name", "Unknown")` returns the plain Python
string "Unknown", and `"Unknown".astype(str)` raises `AttributeError`
(`str` has no attribute `astype`). -/
inductive CleanErr where
  | attributeError : CleanErr
deriving DecidableEq

/-- The cleaned record built from a raw row whose required numeric cells all
coerced successfully (lines 195-217). -/
def mkEvent (hasEventId hasTsunami : Bool) (r : RawRow)
    (yq la lo mg dp : ℚ) : Event :=
  { event_id := if hasEventId then some r.event_id else none
    date := some ⟨ratTrunc yq, fillInt 1 (toNumeric r.month), fillInt 1 (toNumeric r.day)⟩
    year := ratTrunc yq
    location_name := stripStr r.location_name
    latitude := la
    longitude := lo
    magnitude := mg
    depth_km := dp
    deaths := fillInt 0 (toNumeric r.deaths)
    injuries := fillInt 0 (toNumeric r.injuries)
    total_casualties := fillInt 0 (toNumeric r.deaths) + fillInt 0 (toNumeric r.injuries)
    tsunami_flag := if hasTsunami then some (normTsunami r.tsunami_flag) else none }

/-- Per-row effect of the Normalizer: the numeric coercions (line 192-193),
the derived fields, and the `dropna` of line 219 — a row survives iff
`year`, `latitude`, `longitude`, `magnitude`, `depth_km` all coerced and the
date was parseable. -/
def cleanRow (hasEventId hasTsunami : Bool) (r : RawRow) : Option Event :=
  match toNumeric r.year, toNumeric r.latitude, toNumeric r.longitude,
        toNumeric r.magnitude, toNumeric r.depth_km with
  | some yq, some la, some lo, some mg, some dp =>
    if dateOk yq (fillInt 1 (toNumeric r.month)) (fillInt 1 (toNumeric r.day)) then
      some (mkEvent hasEventId hasTsunami r yq la lo mg dp)
    else none
  | _, _, _, _, _ => none

/-- Order on the dates of surviving rows (all are `some`); `none` sorts first. -/
def dateLe (a b : Option Date) : Bool :=
  match a, b with
  | none, _ => true
  | some _, none => false
  | some x, some y =>
    decide (x.y < y.y) || (x.y == y.y &&
      (decide (x.m < y.m) || (x.m == y.m && decide (x.d ≤ y.d))))

/-- Insert into a date-sorted list (model of `sort_values("date")`; the
sort of the source is deterministic, tie order is unspecified). -/
def insertByDate (e : Event) : List Event → List Event
  | [] => [e]
  | x :: xs => if dateLe e.date x.date then e :: x :: xs else x :: insertByDate e xs

/-- Sort the cleaned rows by date ascending (line 226). -/
def sortByDate : List Event → List Event
  | [] => []
  | x :: xs => insertByDate x (sortByDate xs)

/-- The Normalizer `auto_clean_raw_to_csv`, from the post-rename frame to
the cleaned CSV contents. When the location-name column is absent, line 199
raises `AttributeError` before anything is written. -/
def cleanFrame (fr : RawFrame) : Except CleanErr (List Event) :=
  if fr.hasLocation then
    .ok (sortByDate (fr.rows.filterMap (cleanRow fr.hasEventId fr.hasTsunami)))
  else
    .error .attributeError

/-- File-system view for the idempotence claim: the parsed contents of the
raw file and the contents of the cleaned file, if one exists. -/
structure SysState where
  raw : RawFrame
  clean : Option (List Event)
deriving DecidableEq

/-- One run of `auto_clean_raw_to_csv(RAW_PATH, CLEAN_PATH)`: reads only the
raw file; on success overwrites the cleaned file, on an exception writes
nothing. -/
def runNormalizer (s : SysState) : SysState :=
  match cleanFrame s.raw with
  | .ok evs => { s with clean := some evs }
  | .error _ => s

/-- Severity classification `classify_severity` (lines 277-282). -/
def classify_severity (total : Int) : String :=
  if 1000 ≤ total then "Severe"
  else if 100 ≤ total then "Moderate"
  else "Minor"

/-- The event-category selectbox values (line 301-304). The script tests
`"only" in event_type.lower()` and then `"tsunami" in event_type.lower()`,
which on the three offered strings selects exactly these branches. -/
inductive EventCat where
  | all : EventCat
  | quakeOnly : EventCat
  | quakeTsunami : EventCat
deriving DecidableEq

/-- The primary-metric selectbox (line 325). -/
inductive Metric where
  | total_casualties : Metric
  | deaths : Metric
  | injuries : Metric
deriving DecidableEq

/-- Column selected by the metric. -/
def metricVal : Metric → Event → Int
  | .total_casualties, e => e.total_casualties
  | .deaths, e => e.deaths
  | .injuries, e => e.injuries

/-- The filter specification assembled from the control panel (§5). -/
structure FilterSpec where
  targetMag : ℚ
  yearLo : Int
  yearHi : Int
  sevMinor : Bool
  sevModerate : Bool
  sevSevere : Bool
  onlyCasualties : Bool
  category : EventCat
  metric : Metric
deriving DecidableEq

/-- Constant `mag_window = 0.25` (line 330). -/
def mag_window : ℚ := 0.25

/-- Test `df["magnitude"].between(magnitude - mag_window, magnitude + mag_window)`
— pandas `between` is inclusive at both ends. -/
def magBetween (target m : ℚ) : Bool :=
  decide (target - mag_window ≤ m) && decide (m ≤ target + mag_window)

/-- List `severity_filter = [o for o in options if st.session_state[o]]`
(line 321), as selected in the spec. -/
def sevListOf (s : FilterSpec) : List String :=
  (if s.sevMinor then ["Minor"] else []) ++
  (if s.sevModerate then ["Moderate"] else []) ++
  (if s.sevSevere then ["Severe"] else [])

/-- The conjunctive mask of lines 332-336: year bounds, magnitude window,
severity membership (severity is computed per-row at line 284). -/
def basePred (s : FilterSpec) (e : Event) : Bool :=
  decide (s.yearLo ≤ e.year) && decide (e.year ≤ s.yearHi) &&
  magBetween s.targetMag e.magnitude &&
  (sevListOf s).contains (classify_severity e.total_casualties)

/-- Lines 338-339: `if only_with_casualties: f = f[f["total_casualties"] > 0]`. -/
def casStep (s : FilterSpec) (l : List Event) : List Event :=
  if s.onlyCasualties then l.filter (fun e => decide (0 < e.total_casualties)) else l

/-- Lines 341-345: the tsunami-category mask, applied only when the dataset
has a tsunami column. -/
def tsuStep (s : FilterSpec) (hasTsunami : Bool) (l : List Event) : List Event :=
  if hasTsunami then
    match s.category with
    | .all => l
    | .quakeOnly => l.filter (fun e => e.tsunami_flag == some 0)
    | .quakeTsunami => l.filter (fun e => e.tsunami_flag == some 1)
  else l

/-- The full filter pipeline of §6 of the script, producing `f`. -/
def filterEvents (ds : List Event) (s : FilterSpec) (hasTsunami : Bool) : List Event :=
  tsuStep s hasTsunami (casStep s (ds.filter (basePred s)))

/-- The zeroed placeholder row substituted at lines 353-366 when `f` is
empty. Its severity column is the literal "Minor", which agrees with
`classify_severity 0`. It has no date and no event id. -/
def placeholder (s : FilterSpec) (hasTsunami : Bool) : Event :=
  { event_id := none
    date := none
    year := s.yearLo
    location_name := "No data"
    latitude := 0
    longitude := 0
    magnitude := s.targetMag
    depth_km := 0
    deaths := 0
    injuries := 0
    total_casualties := 0
    tsunami_flag := if hasTsunami then some 0 else none }

/-- The frame actually displayed (lines 351-366): the filtered rows, or the
single placeholder row when the filter matched nothing. -/
def displayRows (ds : List Event) (s : FilterSpec) (hasTsunami : Bool) : List Event :=
  match filterEvents ds s hasTsunami with
  | [] => [placeholder s hasTsunami]
  | e :: es => e :: es

/-- Sum `int(f[col].sum())` over a column (lines 422-424). -/
def sumBy (f : Event → Int) (l : List Event) : Int := (l.map f).sum

/-- Count `len(f)` — the Event Count KPI (line 425). -/
def eventCount (l : List Event) : Nat := l.length

/-- Scan of `idxmax`: keep the first row attaining the running maximum. -/
def peakFold (f : Event → Int) (best : Event) : List Event → Event
  | [] => best
  | x :: xs => if f best < f x then peakFold f x xs else peakFold f best xs

/-- Peak `f.loc[f[metric].idxmax()]` (line 387): the first row holding the
maximum of the metric; undefined (pandas raises) on an empty frame. -/
def peakEvent (f : Event → Int) : List Event → Option Event
  | [] => none
  | x :: xs => some (peakFold f x xs)

/-- Session state of the three severity checkboxes (§5). -/
structure SevState where
  minor : Bool
  moderate : Bool
  severe : Bool
deriving DecidableEq

/-- The three checkbox keys. -/
inductive SevOpt where
  | minor : SevOpt
  | moderate : SevOpt
  | severe : SevOpt
deriving DecidableEq

/-- Read one checkbox from the session state. -/
def getOpt (s : SevState) : SevOpt → Bool
  | .minor => s.minor
  | .moderate => s.moderate
  | .severe => s.severe

/-- Write one checkbox into the session state. -/
def setOpt (s : SevState) (o : SevOpt) (v : Bool) : SevState :=
  match o with
  | .minor => { s with minor := v }
  | .moderate => { s with moderate := v }
  | .severe => { s with severe := v }

/-- Sum `sum(st.session_state[o] for o in options)` (line 315). -/
def checkedCount (s : SevState) : Nat :=
  (if s.minor then 1 else 0) + (if s.moderate then 1 else 0) + (if s.severe then 1 else 0)

/-- The `enforce_one` callback (lines 313-316): if every box is now
unchecked, re-check the one that was just changed. -/
def enforce_one (o : SevOpt) (s : SevState) : SevState :=
  if checkedCount s == 0 then setOpt s o true else s

/-- One user interaction with checkbox `o`: the widget writes the new value
into the session state, then the `on_change` callback runs. -/
def interact (s : SevState) (o : SevOpt) (v : Bool) : SevState :=
  enforce_one o (setOpt s o v)

/-- Initial session state (line 310-311): every box defaults to checked. -/
def initSevState : SevState := ⟨true, true, true⟩

/-- At least one severity class is selected. -/
def atLeastOne (s : SevState) : Prop := 0 < checkedCount s

instance (s : SevState) : Decidable (atLeastOne s) :=
  inferInstanceAs (Decidable (0 < checkedCount s))

/-! Helper lemmas -/

/-- A pointwise-stronger filter produces a sublist of the weaker filter. -/
theorem filter_sublist_of_imp {α : Type} (p q : α → Bool)
    (h : ∀ x, q x = true → p x = true) :
    ∀ l : List α, (l.filter q).Sublist (l.filter p) := by
  intro l
  induction l with
  | nil => simp
  | cons x xs ih =>
    by_cases hq : q x = true
    · rw [List.filter_cons_of_pos hq, List.filter_cons_of_pos (h x hq)]
      exact ih.cons₂ x
    · rw [List.filter_cons_of_neg hq]
      by_cases hp : p x = true
      · rw [List.filter_cons_of_pos hp]
        exact ih.cons x
      · rw [List.filter_cons_of_neg hp]
        exact ih

/-- The casualty step preserves the sublist relation. -/
theorem casStep_sublist (s : FilterSpec) {l₁ l₂ : List Event}
    (h : l₁.Sublist l₂) : (casStep s l₁).Sublist (casStep s l₂) := by
  unfold casStep
  split
  · exact h.filter _
  · exact h

/-- The tsunami step preserves the sublist relation. -/
theorem tsuStep_sublist (s : FilterSpec) (ht : Bool) {l₁ l₂ : List Event}
    (h : l₁.Sublist l₂) : (tsuStep s ht l₁).Sublist (tsuStep s ht l₂) := by
  unfold tsuStep
  split
  · split
    · exact h
    · exact h.filter _
    · exact h.filter _
  · exact h

/-- Membership in an insertion. -/
theorem mem_insertByDate {e x : Event} : ∀ {l : List Event},
    e ∈ insertByDate x l ↔ e = x ∨ e ∈ l := by
  intro l
  induction l with
  | nil => simp [insertByDate]
  | cons y ys ih =>
    unfold insertByDate
    split
    · simp
    · simp [ih]
      tauto

/-- Sorting does not change membership. -/
theorem mem_sortByDate {e : Event} : ∀ {l : List Event},
    e ∈ sortByDate l ↔ e ∈ l := by
  intro l
  induction l with
  | nil => simp [sortByDate]
  | cons x xs ih => simp [sortByDate, mem_insertByDate, ih]

/-- Casualty fields of a surviving row come from the filled raw cells. -/
theorem cleanRow_fields {he ht : Bool} {r : RawRow} {e : Event}
    (h : cleanRow he ht r = some e) :
    e.deaths = fillInt 0 (toNumeric r.deaths) ∧
    e.injuries = fillInt 0 (toNumeric r.injuries) ∧
    e.total_casualties = fillInt 0 (toNumeric r.deaths) + fillInt 0 (toNumeric r.injuries) := by
  unfold cleanRow at h
  split at h
  · split at h
    · cases h
      exact ⟨rfl, rfl, rfl⟩
    · cases h
  · cases h

/-! Claim theorems -/

/-- C2: the severity classification is a pure function of `total_casualties`
returning Severe exactly on values ≥ 1000, Moderate exactly on 100 ≤ t < 1000,
Minor exactly on t < 100, with 1000 ↦ Severe, 999 ↦ Moderate, 100 ↦ Moderate,
99 ↦ Minor, 0 ↦ Minor. -/
theorem C2_classify_severity :
    (∀ t : Int,
      (classify_severity t = "Severe" ↔ 1000 ≤ t) ∧
      (classify_severity t = "Moderate" ↔ 100 ≤ t ∧ t < 1000) ∧
      (classify_severity t = "Minor" ↔ t < 100)) ∧
    classify_severity 1000 = "Severe" ∧
    classify_severity 999 = "Moderate" ∧
    classify_severity 100 = "Moderate" ∧
    classify_severity 99 = "Minor" ∧
    classify_severity 0 = "Minor" := by
  refine ⟨fun t => ⟨?_, ?_, ?_⟩, by decide, by decide, by decide, by decide, by decide⟩ <;>
    · unfold classify_severity
      split_ifs <;> simp_all <;> omega

/-- C4: the magnitude predicate of the filter admits an event exactly when
the distance between its magnitude and the target is at most 0.25, inclusive
at both ends; with target 6.5 a magnitude of 6.7 passes and 7.0 does not. -/
theorem C4_magnitude_window :
    (∀ target m : ℚ, magBetween target m = true ↔ |m - target| ≤ 0.25) ∧
    mag_window = 0.25 ∧
    magBetween 6.5 6.7 = true ∧
    magBetween 6.5 7.0 = false := by
  refine ⟨fun target m => ?_, rfl, by norm_num [magBetween, mag_window],
    by norm_num [magBetween, mag_window]⟩
  unfold magBetween mag_window
  rw [Bool.and_eq_true, decide_eq_true_eq, decide_eq_true_eq, abs_le]
  constructor
  · rintro ⟨h1, h2⟩
    constructor <;> linarith
  · rintro ⟨h1, h2⟩
    constructor <;> linarith

/-- C6: running the Normalizer twice on the same raw input yields the same
file-system outcome as running it once — in particular the contents of
the cleaned file are identical (the transform reads only the raw file, is a pure
function of it, and overwrites its previous output). -/
theorem C6_normalize_idempotent (s : SysState) :
    runNormalizer (runNormalizer s) = runNormalizer s := by
  unfold runNormalizer
  rcases h : cleanFrame s.raw with e | evs <;> simp [h]

/-- C8: after any single checkbox interaction (the widget writes the new
value, then the `enforce_one` callback runs) at least one severity class is
selected, and the initial state has all three selected — so the severity
filter never runs with an empty class set. -/
theorem C8_at_least_one_selected :
    (∀ (s : SevState) (o : SevOpt) (v : Bool), atLeastOne (interact s o v)) ∧
    atLeastOne initSevState := by
  refine ⟨fun s o v => ?_, by decide⟩
  rcases s with ⟨m, md, sv⟩
  cases o <;> cases m <;> cases md <;> cases sv <;> cases v <;> decide

/-- C3: every Event in the canonical output of the Normalizer satisfies
total_casualties = deaths + injuries. -/
theorem C3_total_is_sum (fr : RawFrame) (evs : List Event) (e : Event)
    (hok : cleanFrame fr = .ok evs) (he : e ∈ evs) :
    e.total_casualties = e.deaths + e.injuries := by
  unfold cleanFrame at hok
  split at hok
  · cases hok
    rw [mem_sortByDate, List.mem_filterMap] at he
    obtain ⟨r, _, hcr⟩ := he
    obtain ⟨hd, hi, htot⟩ := cleanRow_fields hcr
    rw [htot, hd, hi]
  · cases hok

/-- Concrete raw frame used as a witness: one fully numeric row. -/
def wRow : RawRow :=
  { event_id := .missing, year := .num 1950, month := .num 1, day := .num 2
    location_name := " Valdivia ", latitude := .num 10, longitude := .num 20
    depth_km := .num 8, magnitude := .num 7, deaths := .num 3, injuries := .num 2
    tsunami_flag := .missing }

/-- Witness frame: no event-id or tsunami column, location column present. -/
def wFrame : RawFrame := ⟨false, true, false, [wRow]⟩

/-- The canonical event the Normalizer produces from `wRow`. -/
def wEvent : Event :=
  { event_id := none, date := some ⟨1950, 1, 2⟩, year := 1950
    location_name := "Valdivia", latitude := 10, longitude := 20
    magnitude := 7, depth_km := 8, deaths := 3, injuries := 2
    total_casualties := 5, tsunami_flag := none }

/-- C3 witness: the hypotheses of `C3_total_is_sum` hold at `wFrame` and
its conclusion follows there. -/
theorem C3_witness :
    cleanFrame wFrame = .ok [wEvent] ∧
    wEvent.total_casualties = wEvent.deaths + wEvent.injuries :=
  ⟨rfl, C3_total_is_sum wFrame [wEvent] wEvent rfl (by simp)⟩

/-- C5: a raw row whose magnitude, latitude, longitude or depth is
non-numeric, or whose year does not coerce to a number, is dropped by the
Normalizer (its per-row cleaning yields no canonical event, so it is absent
from the output, which is exactly the sorted list of per-row results). -/
theorem C5_invalid_row_dropped (he ht : Bool) (r : RawRow)
    (h : toNumeric r.magnitude = none ∨ toNumeric r.latitude = none ∨
         toNumeric r.longitude = none ∨ toNumeric r.depth_km = none ∨
         toNumeric r.year = none) :
    cleanRow he ht r = none := by
  unfold cleanRow
  split
  · rename_i hy hla hlo hmg hdp
    rcases h with h | h | h | h | h <;> simp_all
  · rfl

/-- Raw row with a textual magnitude, used as the C5 witness. -/
def badMagRow : RawRow :=
  { event_id := .missing, year := .num 1950, month := .num 1, day := .num 2
    location_name := "x", latitude := .num 10, longitude := .num 20
    depth_km := .num 8, magnitude := .text "strong", deaths := .num 3
    injuries := .num 2, tsunami_flag := .missing }

/-- C5 witness: `badMagRow` has a non-numeric magnitude and is dropped. -/
theorem C5_witness :
    toNumeric badMagRow.magnitude = none ∧ cleanRow false false badMagRow = none :=
  ⟨rfl, C5_invalid_row_dropped false false badMagRow (Or.inl rfl)⟩

/-- C7: the filter is monotonic in the year range — replacing
(yearLo, yearHi) by a sub-range never increases the number of matching
rows. -/
theorem C7_year_range_monotonic (ds : List Event) (s : FilterSpec) (ht : Bool)
    (a b : Int) (h1 : s.yearLo ≤ a) (h2 : b ≤ s.yearHi) :
    (filterEvents ds { s with yearLo := a, yearHi := b } ht).length ≤
      (filterEvents ds s ht).length := by
  have hsub : (ds.filter (basePred { s with yearLo := a, yearHi := b })).Sublist
      (ds.filter (basePred s)) := by
    apply filter_sublist_of_imp
    intro e he
    simp only [basePred, Bool.and_eq_true, decide_eq_true_eq] at he ⊢
    obtain ⟨⟨⟨hya, hyb⟩, hmag⟩, hsev⟩ := he
    exact ⟨⟨⟨by omega, by omega⟩, hmag⟩, hsev⟩
  exact (tsuStep_sublist s ht (casStep_sublist s hsub)).length_le

/-- First witness event: year 1950, inside both ranges. -/
def wEvA : Event :=
  { event_id := none, date := some ⟨1950, 5, 1⟩, year := 1950
    location_name := "A", latitude := 0, longitude := 0
    magnitude := 7, depth_km := 10, deaths := 4, injuries := 1
    total_casualties := 5, tsunami_flag := none }

/-- Second witness event: year 1990, inside the wide range only. -/
def wEvB : Event :=
  { event_id := none, date := some ⟨1990, 5, 1⟩, year := 1990
    location_name := "B", latitude := 0, longitude := 0
    magnitude := 7, depth_km := 10, deaths := 2, injuries := 2
    total_casualties := 4, tsunami_flag := none }

/-- Witness dataset for the filter claims. -/
def wDs : List Event := [wEvA, wEvB]

/-- Witness filter specification: years 1900-2000, target magnitude 7,
all severities, casualties required. -/
def wSpec : FilterSpec :=
  { targetMag := 7, yearLo := 1900, yearHi := 2000
    sevMinor := true, sevModerate := true, sevSevere := true
    onlyCasualties := true, category := .all, metric := .total_casualties }

/-- C7 witness: narrowing 1900-2000 to 1940-1960 satisfies the hypotheses
of `C7_year_range_monotonic` and the count does not increase. -/
theorem C7_witness :
    wSpec.yearLo ≤ 1940 ∧ (1960 : Int) ≤ wSpec.yearHi ∧
    (filterEvents wDs { wSpec with yearLo := 1940, yearHi := 1960 } false).length ≤
      (filterEvents wDs wSpec false).length :=
  ⟨by decide, by decide,
    C7_year_range_monotonic wDs wSpec false 1940 1960 (by decide) (by decide)⟩

/-- Event outside the year range of the witness spec, so the filter matches
nothing. -/
def wEvOld : Event :=
  { event_id := none, date := some ⟨1800, 5, 1⟩, year := 1800
    location_name := "Old", latitude := 0, longitude := 0
    magnitude := 7, depth_km := 10, deaths := 4, injuries := 1
    total_casualties := 5, tsunami_flag := none }

/-- Dataset on which the witness spec matches zero rows. -/
def wDsEmpty : List Event := [wEvOld]

/-- C1 counterexample: a concrete dataset and spec where the filter yields
zero rows, yet the Event Count KPI computed over the substituted display
frame is 1, not 0 — the placeholder row itself is counted by `len(f)`. -/
theorem C1_counterexample :
    filterEvents wDsEmpty wSpec false = [] ∧
    eventCount (displayRows wDsEmpty wSpec false) = 1 ∧
    eventCount (displayRows wDsEmpty wSpec false) ≠ 0 :=
  ⟨rfl, rfl, by decide⟩

/-- C1 amended: when the filter yields zero rows it does not fail (it is a
total function and the display layer substitutes the placeholder), the
KPI sums over the placeholder frame are all zero, the peak event is the
placeholder itself for every metric, but the Event Count is 1 (the
placeholder row is counted), not 0. -/
theorem C1_empty_filter_amended (ds : List Event) (s : FilterSpec) (ht : Bool)
    (h : filterEvents ds s ht = []) :
    displayRows ds s ht = [placeholder s ht] ∧
    sumBy Event.total_casualties (displayRows ds s ht) = 0 ∧
    sumBy Event.deaths (displayRows ds s ht) = 0 ∧
    sumBy Event.injuries (displayRows ds s ht) = 0 ∧
    eventCount (displayRows ds s ht) = 1 ∧
    (∀ mv : Metric, peakEvent (metricVal mv) (displayRows ds s ht) =
      some (placeholder s ht)) := by
  have hd : displayRows ds s ht = [placeholder s ht] := by
    unfold displayRows
    rw [h]
  refine ⟨hd, ?_, ?_, ?_, ?_, fun mv => ?_⟩ <;>
    simp [hd, sumBy, eventCount, peakEvent, peakFold, placeholder]

/-- C1 witness: the hypothesis of `C1_empty_filter_amended` holds at the
concrete empty-result scenario and its conclusions follow there. -/
theorem C1_witness :
    filterEvents wDsEmpty wSpec false = [] ∧
    (displayRows wDsEmpty wSpec false = [placeholder wSpec false] ∧
     sumBy Event.total_casualties (displayRows wDsEmpty wSpec false) = 0 ∧
     sumBy Event.deaths (displayRows wDsEmpty wSpec false) = 0 ∧
     sumBy Event.injuries (displayRows wDsEmpty wSpec false) = 0 ∧
     eventCount (displayRows wDsEmpty wSpec false) = 1 ∧
     (∀ mv : Metric, peakEvent (metricVal mv) (displayRows wDsEmpty wSpec false) =
       some (placeholder wSpec false))) :=
  ⟨rfl, C1_empty_filter_amended wDsEmpty wSpec false rfl⟩

/-- Raw frame with every required column but no location-name column. -/
def noLocFrame : RawFrame := ⟨false, false, false, [wRow]⟩

/-- C9: with no location-name column, line 199 of the source raises
`AttributeError` instead of defaulting `location_name` to "Unknown":
`df.get("location_name", "Unknown")` returns the plain string "Unknown"
and a Python `str` has no `astype` method. The same frame with a location
column normalizes fine, isolating the crash to the missing column. -/
theorem C9_missing_location_crashes :
    cleanFrame noLocFrame = .error .attributeError ∧
    ∃ evs, cleanFrame { noLocFrame with hasLocation := true } = .ok evs :=
  ⟨rfl, ⟨_, rfl⟩⟩

/-- Raw row with a negative (but numeric) deaths cell: nothing in the
Normalizer rejects it. -/
def negDeathsRow : RawRow :=
  { event_id := .missing, year := .num 1950, month := .num 1, day := .num 2
    location_name := "x", latitude := .num 10, longitude := .num 20
    depth_km := .num 8, magnitude := .num 7, deaths := .num (-1)
    injuries := .num 0, tsunami_flag := .missing }

/-- Frame containing the negative-deaths row. -/
def negDeathsFrame : RawFrame := ⟨false, true, false, [negDeathsRow]⟩

/-- The canonical event produced from `negDeathsRow`: deaths = -1. -/
def negDeathsEvent : Event :=
  { event_id := none, date := some ⟨1950, 1, 2⟩, year := 1950
    location_name := "x", latitude := 10, longitude := 20
    magnitude := 7, depth_km := 8, deaths := -1, injuries := 0
    total_casualties := -1, tsunami_flag := none }

/-- C10 counterexample: the Normalizer accepts a raw row whose deaths cell
is -1 and emits a canonical Event with deaths = -1 < 0 — `fillna(0)
.astype(int)` fills missing values but never enforces non-negativity. -/
theorem C10_counterexample :
    cleanFrame negDeathsFrame = .ok [negDeathsEvent] ∧
    negDeathsEvent ∈ [negDeathsEvent] ∧ negDeathsEvent.deaths < 0 :=
  ⟨rfl, by simp, by decide⟩

/-- C10 amended: deaths and injuries of every canonical Event are integers
obtained from the raw cells with missing values treated as zero; they are
non-negative whenever the raw cell is missing or a non-negative number, but
a negative raw value passes through unchecked. -/
theorem C10_casualty_fields_amended (he ht : Bool) (r : RawRow) (e : Event)
    (h : cleanRow he ht r = some e) :
    (toNumeric r.deaths = none → e.deaths = 0) ∧
    (toNumeric r.injuries = none → e.injuries = 0) ∧
    (∀ q : ℚ, toNumeric r.deaths = some q → 0 ≤ q → 0 ≤ e.deaths) ∧
    (∀ q : ℚ, toNumeric r.injuries = some q → 0 ≤ q → 0 ≤ e.injuries) := by
  obtain ⟨hd, hi, -⟩ := cleanRow_fields h
  refine ⟨fun hn => ?_, fun hn => ?_, fun q hq hq0 => ?_, fun q hq hq0 => ?_⟩
  · rw [hd, hn]; rfl
  · rw [hi, hn]; rfl
  · rw [hd, hq]
    exact Int.tdiv_nonneg (Rat.num_nonneg.mpr hq0) (Int.ofNat_nonneg q.den)
  · rw [hi, hq]
    exact Int.tdiv_nonneg (Rat.num_nonneg.mpr hq0) (Int.ofNat_nonneg q.den)

/-- Raw row with a missing deaths cell and two injuries. -/
def missingDeathsRow : RawRow :=
  { event_id := .missing, year := .num 1950, month := .num 1, day := .num 2
    location_name := "x", latitude := .num 10, longitude := .num 20
    depth_km := .num 8, magnitude := .num 7, deaths := .missing
    injuries := .num 2, tsunami_flag := .missing }

/-- The canonical event produced from `missingDeathsRow`. -/
def missingDeathsEvent : Event :=
  { event_id := none, date := some ⟨1950, 1, 2⟩, year := 1950
    location_name := "x", latitude := 10, longitude := 20
    magnitude := 7, depth_km := 8, deaths := 0, injuries := 2
    total_casualties := 2, tsunami_flag := none }

/-- C10 witness: the hypothesis of `C10_casualty_fields_amended` holds at
`missingDeathsRow` and its conclusions follow there. -/
theorem C10_witness :
    cleanRow false false missingDeathsRow = some missingDeathsEvent ∧
    ((toNumeric missingDeathsRow.deaths = none → missingDeathsEvent.deaths = 0) ∧
     (toNumeric missingDeathsRow.injuries = none → missingDeathsEvent.injuries = 0) ∧
     (∀ q : ℚ, toNumeric missingDeathsRow.deaths = some q → 0 ≤ q →
       0 ≤ missingDeathsEvent.deaths) ∧
     (∀ q : ℚ, toNumeric missingDeathsRow.injuries = some q → 0 ≤ q →
       0 ≤ missingDeathsEvent.injuries)) :=
  ⟨rfl, C10_casualty_fields_amended false false missingDeathsRow missingDeathsEvent rfl⟩

end MCI
